import Mathlib

/-!
Verification of the field-binding and aggregation-resolution core of
django-data-browser (`data_browser/orm_fields.py` and
`data_browser/orm_aggregates.py`), as a shallow embedding in Lean 4.

Python semantics are modelled explicitly: fallible operations (assertion
failures, attribute errors on `None`) return `Except BindError`, truthiness
of optional strings is made explicit, and the dictionary-based aggregate
registry is modelled as an association list in insertion order.
-/

namespace DataBrowser

/-- Modelled from the spec: the semantic-type registry (the `types` module is
absent from src). Spec section 3: "an enum-like capability tag (Number, Date,
DateTime, Duration, Boolean, HTML, Array-of-T, ...)"; the array-capable types
(with their element types) back the array-aggregation rules of section 4.3. -/
inductive BaseType where
  | StringType
  | NumberType
  | DateTimeType
  | DateType
  | DurationType
  | BooleanType
  | HTMLType
  | StringArrayType
  | NumberArrayType
deriving DecidableEq, Repr

/-- Modelled from the spec: the `name` attribute of a semantic type (the
`types` module is absent from src); used by `OrmAggregateField.__init__` as
the synthesized descriptor's model name. -/
def BaseType.name : BaseType → String
  | .StringType => "string"
  | .NumberType => "number"
  | .DateTimeType => "datetime"
  | .DateType => "date"
  | .DurationType => "duration"
  | .BooleanType => "boolean"
  | .HTMLType => "html"
  | .StringArrayType => "stringarray"
  | .NumberArrayType => "numberarray"

/-- Modelled from the spec: the process-wide set `TYPES.values()` iterated by
the registry-construction loops of `orm_aggregates.py` (the `types` module is
absent from src). -/
def TYPES : List BaseType :=
  [.StringType, .NumberType, .DateTimeType, .DateType, .DurationType,
   .BooleanType, .HTMLType, .StringArrayType, .NumberArrayType]

/-- Modelled from the spec: the array-capable types whose `raw_type is None`,
paired as (element type, array type) (the `types` module is absent from src).
Spec section 4.3: "for every semantic type that is the element type of some
array-capable type, additionally register `all` ... yielding that array type";
section 8 fixes that Number is such an element type and Boolean is not. -/
def arrayElementTypes : List (BaseType × BaseType) :=
  [(.StringType, .StringArrayType), (.NumberType, .NumberArrayType)]

/-- Modelled from the spec: `s` from the `util` module (absent from src).
Spec section 4.2: "Path-string helpers render `full_path`/`queryset_path` as
store-addressable dotted/double-underscore identifiers". -/
def s (path : List String) : String := String.intercalate "__" path

/-- Modelled from the spec: `annotation_path` from the `util` module (absent
from src). Spec section 4.3: "a single annotation-namespaced identifier
derived from the full path", section 4.1: "combining a fixed namespace prefix
and the full path, joined by a reserved separator"; the `ddb` namespace prefix
is visible in `OrmAnnotatedField.bind` (orm_fields.py line 241). -/
def annotation_path (path : List String) : String := s ("ddb" :: path)

/-- The aggregate callables stored in `TYPE_AGGREGATES`
(orm_aggregates.py lines 57-99), named after the Django expression each
lambda builds. -/
inductive AggFunc where
  | countDistinct
  | max
  | min
  | avg
  | stdDev
  | sum
  | variance
  | avgCastDuration
  | sumCastDuration
  | avgCastInt
  | sumCastInt
  | arrayAgg
deriving DecidableEq, Repr

/-- Python truthiness of an optional string: `None` and `""` are falsy. -/
def truthyStr : Option String → Bool
  | none => false
  | some v => v ≠ ""

/-- The dataclass `OrmBaseField` (orm_fields.py lines 88-97): entity name,
programmatic name, display name, optional semantic type, concrete flag,
optional related-entity name, pivot flag, and choice pairs. -/
structure OrmBaseField where
  model_name : String
  name : String
  pretty_name : String
  type_ : Option BaseType
  concrete : Bool
  rel_name : Option String
  can_pivot : Bool
  choices : List (String × String)
deriving DecidableEq, Repr

/-- The body of `OrmBaseField.__post_init__` (orm_fields.py lines 99-103) as
a boolean check: `if not self.type_: assert self.rel_name` and
`if self.concrete or self.can_pivot: assert self.type_`. A semantic type is a
class, hence truthy exactly when present; `rel_name` is a string, falsy when
`None` or empty. -/
def postInitOk (type_ : Option BaseType) (concrete : Bool)
    (rel_name : Option String) (can_pivot : Bool) : Bool :=
  (type_.isSome || truthyStr rel_name) && (!(concrete || can_pivot) || type_.isSome)

/-- Constructing an `OrmBaseField` (dataclass `__init__` followed by
`__post_init__`, orm_fields.py lines 88-103): yields the descriptor when the
asserts pass, fails (`none`) otherwise. -/
def OrmBaseField.make (model_name name pretty_name : String)
    (type_ : Option BaseType) (concrete : Bool) (rel_name : Option String)
    (can_pivot : Bool) (choices : List (String × String)) :
    Option OrmBaseField :=
  if postInitOk type_ concrete rel_name can_pivot then
    some ⟨model_name, name, pretty_name, type_, concrete, rel_name, can_pivot, choices⟩
  else
    none

/-- The variant tag distinguishing the `bind` overrides of the descriptor
subclasses in orm_fields.py / orm_aggregates.py. `calculated` need not carry
the row function (it is only used by `get_formatter`, modelled separately);
`aggregate` carries `base_type` and `agg_func` (orm_aggregates.py
lines 29-30). -/
inductive FieldKind where
  | fk
  | concrete
  | raw
  | calculated
  | annotated
  | file
  | aggregate (base_type : BaseType) (agg_func : AggFunc)
deriving DecidableEq, Repr

/-- A field descriptor: the shared dataclass state plus the variant tag that
selects the `bind` behaviour. -/
structure OrmField where
  base : OrmBaseField
  kind : FieldKind
deriving DecidableEq, Repr

/-- `OrmAggregateField.__init__` (orm_aggregates.py lines 24-30):
`super().__init__(base_type.name, name, name.replace("_", " "), type_=type_,
concrete=True)` then stores `base_type` and `agg_func`. The `__post_init__`
asserts pass because `type_` is always supplied. -/
def OrmAggregateField.make (base_type : BaseType) (name : String)
    (agg_func : AggFunc) (type_ : BaseType) : OrmField :=
  ⟨⟨base_type.name, name, name.replace "_" " ", some type_, true, none, false, []⟩,
   .aggregate base_type agg_func⟩

/-- The registry `TYPE_AGGREGATES` (orm_aggregates.py lines 57-99) as a
function from a semantic type to its aggregate row, an association list in
dictionary insertion order; `postgres` tells whether the active store engine
is the PostgreSQL-class one (line 93), enabling array aggregation. For any
one type the five construction passes insert pairwise distinct keys, so
dictionary insertion coincides with list append. -/
def TYPE_AGGREGATES (postgres : Bool) (type_ : BaseType) :
    List (String × AggFunc × BaseType) :=
  (if type_ ≠ .BooleanType then [("count", .countDistinct, .NumberType)] else [])
  ++ (if type_ = .DateTimeType ∨ type_ = .DateType ∨ type_ = .DurationType
        ∨ type_ = .NumberType then
        [("max", .max, type_), ("min", .min, type_)] else [])
  ++ (if type_ = .NumberType then
        [("average", .avg, .NumberType), ("std_dev", .stdDev, .NumberType),
         ("sum", .sum, .NumberType), ("variance", .variance, .NumberType)]
      else [])
  ++ (if type_ = .DurationType then
        [("average", .avgCastDuration, .DurationType),
         ("sum", .sumCastDuration, .DurationType)]
      else [])
  ++ (if type_ = .BooleanType then
        [("average", .avgCastInt, .NumberType), ("sum", .sumCastInt, .NumberType)]
      else [])
  ++ (if postgres then
        arrayElementTypes.filterMap fun et =>
          if et.1 = type_ then some ("all", .arrayAgg, et.2) else none
      else [])

/-- `get_aggregates_for_type` (orm_aggregates.py lines 102-106): materializes
a fresh `OrmAggregateField` per registry row, keyed by aggregate name. -/
def get_aggregates_for_type (postgres : Bool) (type_ : BaseType) :
    List (String × OrmField) :=
  (TYPE_AGGREGATES postgres type_).map fun row =>
    (row.1, OrmAggregateField.make type_ row.1 row.2.1 row.2.2)

/-- How a Python-level `bind` call can fail: a failed `assert` raises
`AssertionError`; attribute access on `None` (the blank sentinel's `field`,
or a missing `previous`) raises `AttributeError`. -/
inductive BindError where
  | assertionError
  | attributeError
deriving DecidableEq, Repr

/-- The dataclass `OrmBoundField` (orm_fields.py lines 19-29): the realized
link of a binding chain. `previous` is the back-reference forming the
singly-linked chain (hence an inductive rather than a structure);
`aggregate_clause` models `agg_func(previous.queryset_path_str)` as the
callable applied to its rendered argument. -/
inductive OrmBoundField : Type where
  | mk
      (field : Option OrmField)
      (previous : Option OrmBoundField)
      (full_path : List String)
      (pretty_path : List String)
      (queryset_path : List String)
      (aggregate_clause : Option (AggFunc × String))
      (filter_ : Bool)
      (having : Bool)
      (model_name : Option String)

def OrmBoundField.field : OrmBoundField → Option OrmField
  | .mk f _ _ _ _ _ _ _ _ => f

def OrmBoundField.previous : OrmBoundField → Option OrmBoundField
  | .mk _ p _ _ _ _ _ _ _ => p

def OrmBoundField.full_path : OrmBoundField → List String
  | .mk _ _ fp _ _ _ _ _ _ => fp

def OrmBoundField.pretty_path : OrmBoundField → List String
  | .mk _ _ _ pp _ _ _ _ _ => pp

def OrmBoundField.queryset_path : OrmBoundField → List String
  | .mk _ _ _ _ qp _ _ _ _ => qp

def OrmBoundField.aggregate_clause : OrmBoundField → Option (AggFunc × String)
  | .mk _ _ _ _ _ ac _ _ _ => ac

def OrmBoundField.filter_ : OrmBoundField → Bool
  | .mk _ _ _ _ _ _ f _ _ => f

def OrmBoundField.having : OrmBoundField → Bool
  | .mk _ _ _ _ _ _ _ h _ => h

def OrmBoundField.model_name : OrmBoundField → Option String
  | .mk _ _ _ _ _ _ _ _ m => m

/-- `OrmBoundField.blank` (orm_fields.py lines 59-63): the root sentinel with
no descriptor, no predecessor and empty paths; the remaining dataclass fields
take their defaults (`None`/`False`). -/
def OrmBoundField.blank : OrmBoundField :=
  .mk none none [] [] [] none false false none

/-- `queryset_path_str` (orm_fields.py lines 35-37). -/
def OrmBoundField.queryset_path_str (b : OrmBoundField) : String :=
  s b.queryset_path

/-- The delegated attribute read `previous.type_`: `OrmBoundField` has no
`type_` of its own, so `__getattr__` (orm_fields.py lines 56-57) forwards to
`self.field`, raising `AttributeError` when `field` is `None` (the blank
sentinel). -/
def OrmBoundField.type_ (b : OrmBoundField) : Except BindError (Option BaseType) :=
  match b.field with
  | none => .error .attributeError
  | some f => .ok f.base.type_

/-- The `bind(previous)` protocol, dispatching on the descriptor variant:
  * `fk` — `OrmFkField.bind` (orm_fields.py lines 113-121),
  * `concrete` — `OrmConcreteField.bind` (lines 137-146),
  * `file` — inherited from `OrmConcreteField` (line 246),
  * `raw` — `OrmRawField.bind` (lines 150-158): no `previous or blank`
    recovery, so a missing previous raises `AttributeError`,
  * `calculated` — `OrmCalculatedField.bind` (lines 171-180),
  * `annotated` — `OrmAnnotatedField.bind` (lines 232-243), returning an
    `OrmBoundAnnotatedField` (same dataclass state),
  * `aggregate` — `OrmAggregateField.bind` (orm_aggregates.py lines 32-44):
    `assert previous` then `assert previous.type_ == self.base_type`, where
    the delegated `previous.type_` read raises on the blank sentinel. -/
def OrmField.bind (f : OrmField) (previous : Option OrmBoundField) :
    Except BindError OrmBoundField :=
  match f.kind with
  | .fk =>
      let p := previous.getD OrmBoundField.blank
      .ok (.mk (some f) (some p) (p.full_path ++ [f.base.name])
        (p.pretty_path ++ [f.base.pretty_name])
        (p.queryset_path ++ [f.base.name]) none false false none)
  | .concrete =>
      let p := previous.getD OrmBoundField.blank
      .ok (.mk (some f) (some p) (p.full_path ++ [f.base.name])
        (p.pretty_path ++ [f.base.pretty_name])
        (p.queryset_path ++ [f.base.name]) none true false none)
  | .file =>
      let p := previous.getD OrmBoundField.blank
      .ok (.mk (some f) (some p) (p.full_path ++ [f.base.name])
        (p.pretty_path ++ [f.base.pretty_name])
        (p.queryset_path ++ [f.base.name]) none true false none)
  | .raw =>
      match previous with
      | none => .error .attributeError
      | some p =>
          .ok (.mk (some f) (some p) (p.full_path ++ [f.base.name])
            (p.pretty_path ++ [f.base.pretty_name])
            p.queryset_path none true false none)
  | .calculated =>
      let p := previous.getD OrmBoundField.blank
      .ok (.mk (some f) (some p) (p.full_path ++ [f.base.name])
        (p.pretty_path ++ [f.base.pretty_name])
        (p.queryset_path ++ ["id"]) none false false (some f.base.model_name))
  | .annotated =>
      let p := previous.getD OrmBoundField.blank
      let full_path := p.full_path ++ [f.base.name]
      .ok (.mk (some f) (some p) full_path
        (p.pretty_path ++ [f.base.pretty_name])
        [s ("ddb" :: full_path)] none true false none)
  | .aggregate base_type agg_func =>
      match previous with
      | none => .error .assertionError
      | some p =>
          match p.field with
          | none => .error .attributeError
          | some pf =>
              if pf.base.type_ = some base_type then
                let full_path := p.full_path ++ [f.base.name]
                .ok (.mk (some f) (some p) full_path
                  (p.pretty_path ++ [f.base.pretty_name])
                  [annotation_path full_path]
                  (some (agg_func, s p.queryset_path)) false true none)
              else .error .assertionError

/-- Binding a sequence of descriptors in order, threading the accumulated
bound field (the resolver walk of spec section 2): `prev` starts as `none`
at the root and becomes the freshly bound field after each hop. -/
def bindChainAux (prev : Option OrmBoundField) :
    List OrmField → Except BindError (Option OrmBoundField)
  | [] => .ok prev
  | f :: fs =>
      match f.bind prev with
      | .error e => .error e
      | .ok b => bindChainAux (some b) fs

/-- A full descriptor chain bound from the blank root. -/
def bindChain (fs : List OrmField) : Except BindError (Option OrmBoundField) :=
  bindChainAux none fs

/-- The `format` closure of `OrmCalculatedField.get_formatter`
(orm_fields.py lines 182-196). The user function may raise, modelled as
`Except String` carrying `str(e)`; `base_formatter` is the semantic type's
own formatter `super().get_formatter()` (external, from the type registry);
the result is `None`, a formatted value, or the exception's string form. -/
def OrmCalculatedField.format {α β γ : Type} (func : α → Except String β)
    (base_formatter : β → γ) : Option α → Option (γ ⊕ String)
  | none => none
  | some obj =>
      match func obj with
      | .error e => some (.inr e)
      | .ok value => some (.inl (base_formatter value))

/-- `format_html('<a href="...">...</a>', url, value)` as used by the file
formatter (orm_fields.py lines 266-268). -/
def format_html_link (url value : String) : String :=
  "<a href=\"" ++ url ++ "\">" ++ value ++ "</a>"

/-- The `format` closure of `OrmFileField.get_formatter`
(orm_fields.py lines 258-272): a falsy stored value (`None` or `""`) yields
`None`; otherwise the storage backend's URL resolution
(`self.django_field.storage.url`, which may raise, modelled as
`Except String` carrying `str(e)`) yields a hyperlink, and a raised error is
degraded to its string form. -/
def OrmFileField.format (storage_url : String → Except String String) :
    Option String → Option String
  | none => none
  | some value =>
      if value = "" then none
      else
        match storage_url value with
        | .ok url => some (format_html_link url value)
        | .error e => some e

/-- The accumulated `full_path` of an optional previous bound field: `[]` at
the root, mirroring `OrmBoundField.blank`. -/
def prevFullPath : Option OrmBoundField → List String
  | none => []
  | some p => p.full_path

/-- The accumulated `pretty_path` of an optional previous bound field. -/
def prevPrettyPath : Option OrmBoundField → List String
  | none => []
  | some p => p.pretty_path

/-- Example fixture (spec section 8 scenario): concrete Number field `total`
on entity `Order`. -/
def orderTotalField : OrmField :=
  ⟨⟨"shop.Order", "total", "total", some .NumberType, true, some "number", true, []⟩,
   .concrete⟩

/-- Example fixture: `total` bound to the blank root (the value
`orderTotalField.bind none` computes to). -/
def orderTotalBound : OrmBoundField :=
  .mk (some orderTotalField) (some .blank) ["total"] ["total"] ["total"]
    none true false none

/-- Example fixture (spec section 8 scenario): foreign-key hop `customer` on
entity `Order`. -/
def customerFkField : OrmField :=
  ⟨⟨"shop.Order", "customer", "customer", none, false, some "shop.Customer",
    false, []⟩, .fk⟩

/-- Example fixture: concrete String field `country` on entity `Customer`. -/
def countryField : OrmField :=
  ⟨⟨"shop.Customer", "country", "country", some .StringType, true,
    some "string", true, []⟩, .concrete⟩

/-- Example fixture: the two-hop descriptor chain `[customer, country]`. -/
def customerCountryChain : List OrmField := [customerFkField, countryField]

/-- Example fixture: the bound field that `bindChain customerCountryChain`
computes to. -/
def customerCountryBound : OrmBoundField :=
  .mk (some countryField)
    (some (.mk (some customerFkField) (some .blank) ["customer"] ["customer"]
      ["customer"] none false false none))
    ["customer", "country"] ["customer", "country"] ["customer", "country"]
    none true false none

theorem OrmBoundField.field_mk (f p fp pp qp ac fl hv mn) :
    (OrmBoundField.mk f p fp pp qp ac fl hv mn).field = f := rfl

theorem OrmBoundField.full_path_mk (f p fp pp qp ac fl hv mn) :
    (OrmBoundField.mk f p fp pp qp ac fl hv mn).full_path = fp := rfl

theorem OrmBoundField.pretty_path_mk (f p fp pp qp ac fl hv mn) :
    (OrmBoundField.mk f p fp pp qp ac fl hv mn).pretty_path = pp := rfl

theorem OrmBoundField.queryset_path_mk (f p fp pp qp ac fl hv mn) :
    (OrmBoundField.mk f p fp pp qp ac fl hv mn).queryset_path = qp := rfl

theorem OrmBoundField.filter_mk (f p fp pp qp ac fl hv mn) :
    (OrmBoundField.mk f p fp pp qp ac fl hv mn).filter_ = fl := rfl

theorem OrmBoundField.having_mk (f p fp pp qp ac fl hv mn) :
    (OrmBoundField.mk f p fp pp qp ac fl hv mn).having = hv := rfl

/-- Every successful `bind` appends exactly the descriptor's programmatic
name to `full_path` and its display name to `pretty_path`. -/
theorem bind_extends_paths (f : OrmField) (prev : Option OrmBoundField)
    (b : OrmBoundField) (h : f.bind prev = .ok b) :
    b.full_path = prevFullPath prev ++ [f.base.name]
      ∧ b.pretty_path = prevPrettyPath prev ++ [f.base.pretty_name] := by
  obtain ⟨base, kind⟩ := f
  cases kind <;> cases prev <;>
    simp [OrmField.bind, prevFullPath, prevPrettyPath, OrmBoundField.blank] at h ⊢ <;>
    first
      | (obtain rfl := h.symm; exact ⟨rfl, rfl⟩)
      | skip
  case aggregate.some base_type agg_func p =>
    cases hf : p.field with
    | none => rw [hf] at h; cases h
    | some pf =>
        rw [hf] at h
        dsimp only at h
        by_cases ht : pf.base.type_ = some base_type
        · rw [if_pos ht] at h
          cases h
          exact ⟨rfl, rfl⟩
        · rw [if_neg ht] at h; cases h

/-- Auxiliary invariant for `bindChainAux`: a successful walk extends the
starting paths by one entry per descriptor. -/
theorem bindChainAux_paths (fs : List OrmField) :
    ∀ (prev : Option OrmBoundField) (b : OrmBoundField),
      bindChainAux prev fs = .ok (some b) →
      b.full_path.length = (prevFullPath prev).length + fs.length
        ∧ b.pretty_path = prevPrettyPath prev ++ fs.map fun f => f.base.pretty_name := by
  induction fs with
  | nil =>
      intro prev b h
      cases prev with
      | none => cases h
      | some p =>
          obtain rfl : p = b := by
            simpa [bindChainAux] using h
          simp [prevFullPath, prevPrettyPath]
  | cons f rest ih =>
      intro prev b h
      cases hb : f.bind prev with
      | error e => simp [bindChainAux, hb] at h
      | ok b0 =>
          have hrest : bindChainAux (some b0) rest = .ok (some b) := by
            simpa [bindChainAux, hb] using h
          obtain ⟨h1, h2⟩ := bind_extends_paths f prev b0 hb
          obtain ⟨ih1, ih2⟩ := ih (some b0) b hrest
          constructor
          · rw [ih1]
            simp [prevFullPath, h1]
            omega
          · rw [ih2]
            simp [prevPrettyPath, h2]

/-- The two `__post_init__` asserts, read off the boolean check. -/
theorem postInitOk_spec (t : Option BaseType) (c : Bool) (rn : Option String)
    (cp : Bool) (h : postInitOk t c rn cp = true) :
    ((c || cp) = true → t.isSome = true)
      ∧ (t = none → truthyStr rn = true) := by
  simp only [postInitOk, Bool.and_eq_true, Bool.or_eq_true] at h
  constructor
  · intro hcp
    rcases h.2 with h' | h'
    · rw [hcp] at h'
      simp at h'
    · exact h'
  · intro htn
    rcases h.1 with h' | h'
    · rw [htn] at h'
      simp at h'
    · exact h'

/-- C1: `get_aggregates_for_type` on the Number semantic type yields exactly
the keys count, max, min, average, std_dev, sum, variance, with `all`
additionally present exactly when array-aggregation (the PostgreSQL-class
engine) is enabled; on the Boolean semantic type it yields exactly
average and sum, and in particular no count. -/
theorem get_aggregates_number_boolean_keys (postgres : Bool) :
    (get_aggregates_for_type postgres .NumberType).map Prod.fst =
      (["count", "max", "min", "average", "std_dev", "sum", "variance"]
        ++ if postgres then ["all"] else [])
    ∧ (get_aggregates_for_type postgres .BooleanType).map Prod.fst =
        ["average", "sum"]
    ∧ "count" ∉ (get_aggregates_for_type postgres .BooleanType).map Prod.fst := by
  cases postgres <;> exact ⟨rfl, rfl, by decide⟩

/-- C2: binding an Aggregate Field to a previously bound field whose semantic
type differs from the Aggregate Field's `base_type` fails with an assertion
failure (`assert previous.type_ == self.base_type`,
orm_aggregates.py line 34), for every combination of mismatched types. -/
theorem aggregate_bind_type_mismatch (base_type type_ t : BaseType)
    (name : String) (agg_func : AggFunc) (p : OrmBoundField) (pf : OrmField)
    (hf : p.field = some pf) (ht : pf.base.type_ = some t)
    (hne : t ≠ base_type) :
    (OrmAggregateField.make base_type name agg_func type_).bind (some p) =
      .error .assertionError := by
  have hne' : pf.base.type_ ≠ some base_type := by
    rw [ht]
    simp [hne]
  simp only [OrmAggregateField.make, OrmField.bind]
  rw [hf]
  dsimp only
  rw [if_neg hne']

theorem aggregate_bind_type_mismatch_witness :
    (OrmAggregateField.make .BooleanType "sum" .sumCastInt .NumberType).bind
      (some orderTotalBound) = .error .assertionError :=
  aggregate_bind_type_mismatch .BooleanType .NumberType .NumberType "sum"
    .sumCastInt orderTotalBound orderTotalField rfl rfl (by decide)

/-- C3: binding an Aggregate Field to a previously bound field whose semantic
type equals its `base_type` succeeds and produces a bound field with
`having = true` and a single-element `queryset_path` consisting of the
annotation-namespaced identifier derived from the full path
(orm_aggregates.py lines 35-44). -/
theorem aggregate_bind_match (base_type type_ : BaseType) (name : String)
    (agg_func : AggFunc) (p : OrmBoundField) (pf : OrmField)
    (hf : p.field = some pf) (ht : pf.base.type_ = some base_type) :
    ∃ b, (OrmAggregateField.make base_type name agg_func type_).bind (some p) =
        .ok b
      ∧ b.having = true
      ∧ b.queryset_path = [annotation_path (p.full_path ++ [name])] := by
  refine
    ⟨.mk (some (OrmAggregateField.make base_type name agg_func type_)) (some p)
      (p.full_path ++ [name]) (p.pretty_path ++ [name.replace "_" " "])
      [annotation_path (p.full_path ++ [name])]
      (some (agg_func, s p.queryset_path)) false true none, ?_, rfl, rfl⟩
  simp only [OrmAggregateField.make, OrmField.bind]
  rw [hf]
  dsimp only
  rw [if_pos ht]

theorem aggregate_bind_match_witness :
    ∃ b, (OrmAggregateField.make .NumberType "sum" .sum .NumberType).bind
        (some orderTotalBound) = .ok b
      ∧ b.having = true
      ∧ b.queryset_path =
          [annotation_path (orderTotalBound.full_path ++ ["sum"])] :=
  aggregate_bind_match .NumberType .NumberType "sum" .sum orderTotalBound
    orderTotalField rfl rfl

/-- C4: binding a Concrete field descriptor with no previous bound field
(the blank root) yields `filter_ = true`, `having = false`, and a
single-element `queryset_path` equal to the field's programmatic name
(orm_fields.py lines 137-146). -/
theorem concrete_bind_blank_root (base : OrmBaseField) :
    ∃ b, OrmField.bind ⟨base, .concrete⟩ none = .ok b
      ∧ b.filter_ = true
      ∧ b.having = false
      ∧ b.queryset_path = [base.name] :=
  ⟨_, rfl, rfl, rfl, rfl⟩

/-- C5: binding a Raw field to any previous bound field leaves
`queryset_path` unchanged (inherited, not extended), while `full_path` and
`pretty_path` are extended by one element and `filter_` is true
(orm_fields.py lines 150-158). -/
theorem raw_bind_inherits_queryset_path (base : OrmBaseField)
    (p : OrmBoundField) :
    ∃ b, OrmField.bind ⟨base, .raw⟩ (some p) = .ok b
      ∧ b.queryset_path = p.queryset_path
      ∧ b.full_path = p.full_path ++ [base.name]
      ∧ b.pretty_path = p.pretty_path ++ [base.pretty_name]
      ∧ b.filter_ = true :=
  ⟨_, rfl, rfl, rfl, rfl, rfl⟩

/-- C6: for every descriptor chain successfully bound from the blank root,
the resulting bound field's `full_path` has length equal to the number of
binding hops, and its `pretty_path` has the same length with each entry equal
to the corresponding descriptor's display name. -/
theorem chain_full_path_length_and_pretty_path (fs : List OrmField)
    (b : OrmBoundField) (h : bindChain fs = .ok (some b)) :
    b.full_path.length = fs.length
      ∧ b.pretty_path = fs.map fun f => f.base.pretty_name := by
  have := bindChainAux_paths fs none b h
  simpa [prevFullPath, prevPrettyPath] using this

theorem chain_full_path_length_and_pretty_path_witness :
    customerCountryBound.full_path.length = customerCountryChain.length
      ∧ customerCountryBound.pretty_path =
          customerCountryChain.map fun f => f.base.pretty_name :=
  chain_full_path_length_and_pretty_path customerCountryChain
    customerCountryBound rfl

/-- C7: for every row object on which a Calculated Field's user-supplied
function raises, the formatter returns the exception's string representation
as the displayed value rather than propagating the failure
(orm_fields.py lines 185-196). -/
theorem calculated_formatter_catches {α β γ : Type}
    (func : α → Except String β) (base_formatter : β → γ) (obj : α)
    (e : String) (h : func obj = .error e) :
    OrmCalculatedField.format func base_formatter (some obj) = some (.inr e) := by
  simp [OrmCalculatedField.format, h]

theorem calculated_formatter_catches_witness :
    OrmCalculatedField.format (fun _ : Nat => (.error "boom" : Except String Nat))
      (fun n => toString n) (some 0) = some (.inr "boom") :=
  calculated_formatter_catches (fun _ : Nat => (.error "boom" : Except String Nat))
    (fun n => toString n) 0 "boom" rfl

/-- C8: the File Field formatter returns `None` for every empty/falsy stored
value (the `None` object and the empty string), and when the storage-URL
resolution raises it returns the exception's string form instead of failing
(orm_fields.py lines 258-272). -/
theorem file_formatter_empty_and_error
    (storage_url : String → Except String String) (v e : String)
    (hv : v ≠ "") (he : storage_url v = .error e) :
    OrmFileField.format storage_url none = none
    ∧ OrmFileField.format storage_url (some "") = none
    ∧ OrmFileField.format storage_url (some v) = some e := by
  refine ⟨rfl, rfl, ?_⟩
  simp [OrmFileField.format, hv, he]

theorem file_formatter_empty_and_error_witness :
    OrmFileField.format (fun _ => .error "misconfigured storage") none = none
    ∧ OrmFileField.format (fun _ => .error "misconfigured storage") (some "") =
        none
    ∧ OrmFileField.format (fun _ => .error "misconfigured storage")
        (some "a.txt") = some "misconfigured storage" :=
  file_formatter_empty_and_error (fun _ => .error "misconfigured storage")
    "a.txt" "misconfigured storage" (by decide) rfl

/-- C9: every successfully constructed `OrmBaseField` satisfies the
`__post_init__` invariants — concrete or pivotable implies a semantic type is
present, and a missing semantic type implies a (truthy) related-entity name —
and construction fails whenever either condition is violated
(orm_fields.py lines 99-103). -/
theorem ormbasefield_post_init_invariant (mn n pn : String)
    (t : Option BaseType) (c : Bool) (rn : Option String) (cp : Bool)
    (ch : List (String × String)) :
    (∀ f, OrmBaseField.make mn n pn t c rn cp ch = some f →
        ((f.concrete || f.can_pivot) = true → f.type_.isSome = true)
        ∧ (f.type_ = none → truthyStr f.rel_name = true))
    ∧ (((t.isSome = false ∧ truthyStr rn = false)
          ∨ ((c || cp) = true ∧ t.isSome = false)) →
        OrmBaseField.make mn n pn t c rn cp ch = none) := by
  constructor
  · intro f hf
    by_cases hp : postInitOk t c rn cp
    · rw [OrmBaseField.make, if_pos hp] at hf
      cases hf
      exact postInitOk_spec t c rn cp hp
    · rw [OrmBaseField.make, if_neg hp] at hf
      cases hf
  · intro hviol
    rw [OrmBaseField.make, if_neg]
    rcases hviol with ⟨h1, h2⟩ | ⟨h1, h2⟩ <;>
      simp [postInitOk, h1, h2]

theorem ormbasefield_post_init_invariant_witness :
    OrmBaseField.make "shop.Order" "total" "total" none true none false [] =
      none :=
  (ormbasefield_post_init_invariant "shop.Order" "total" "total" none true
    none false []).2 (Or.inl ⟨rfl, rfl⟩)

/-- C10: binding a Raw field with no previous bound field fails (an attribute
access on `None`, orm_fields.py lines 150-156, which lacks the
`previous or blank` recovery), while the foreign-key, concrete, calculated
and annotated variants all succeed on a missing previous by substituting the
blank root. -/
theorem raw_bind_none_fails_others_start (base : OrmBaseField) :
    OrmField.bind ⟨base, .raw⟩ none = .error .attributeError
    ∧ (∃ b, OrmField.bind ⟨base, .fk⟩ none = .ok b)
    ∧ (∃ b, OrmField.bind ⟨base, .concrete⟩ none = .ok b)
    ∧ (∃ b, OrmField.bind ⟨base, .calculated⟩ none = .ok b)
    ∧ (∃ b, OrmField.bind ⟨base, .annotated⟩ none = .ok b) :=
  ⟨rfl, ⟨_, rfl⟩, ⟨_, rfl⟩, ⟨_, rfl⟩, ⟨_, rfl⟩⟩

end DataBrowser
